import Mathlib

/-!
Verification of the cocoa-backend service: a shallow embedding of the
payments router (`routes/payments.py`) and the auth/order handlers
(`server.py`), with theorems checking the specification's claims about
payment-signature verification, amount validation and unit conversion,
token expiry, credential-failure indistinguishability, order ownership
checks, password storage, and the admin status update.

Bytes are modelled as `Nat` values below 256; machine words as `Nat`
reduced modulo `2 ^ 32`; monetary amounts as the exact rational values
of the binary64 floats the handlers receive, with the float product
embedded by IEEE-754 round-to-nearest-even; instants as `ℤ` seconds.
Database collections are lists of documents, and each handler is a pure
function of its inputs plus the explicit state it touches.
-/

namespace Cocoa

/-! ## SHA-256 and HMAC-SHA256 over byte lists (FIPS 180-4, RFC 2104)

The payments route calls `hmac.new(secret, message, hashlib.sha256).hexdigest()`
from the Python standard library; these definitions embed that primitive
executably. They reproduce the FIPS 180-4 and RFC 4231 test vectors. -/

/-- Reduce a natural number to a 32-bit word. -/
def w32 (x : Nat) : Nat := x % 4294967296

/-- Right rotation of a 32-bit word. -/
def rotr32 (n x : Nat) : Nat := w32 ((x >>> n) ||| (x <<< (32 - n)))

def bigSigma0 (x : Nat) : Nat := rotr32 2 x ^^^ rotr32 13 x ^^^ rotr32 22 x

def bigSigma1 (x : Nat) : Nat := rotr32 6 x ^^^ rotr32 11 x ^^^ rotr32 25 x

def smallSigma0 (x : Nat) : Nat := rotr32 7 x ^^^ rotr32 18 x ^^^ (x >>> 3)

def smallSigma1 (x : Nat) : Nat := rotr32 17 x ^^^ rotr32 19 x ^^^ (x >>> 10)

/-- The SHA-256 choice function Ch(x, y, z). -/
def chF (x y z : Nat) : Nat := (x &&& y) ^^^ ((x ^^^ 4294967295) &&& z)

/-- The SHA-256 majority function Maj(x, y, z). -/
def majF (x y z : Nat) : Nat := (x &&& y) ^^^ (x &&& z) ^^^ (y &&& z)

/-- The 64 SHA-256 round constants. -/
def sha256K : List Nat :=
  [1116352408, 1899447441, 3049323471, 3921009573,
   961987163, 1508970993, 2453635748, 2870763221,
   3624381080, 310598401, 607225278, 1426881987,
   1925078388, 2162078206, 2614888103, 3248222580,
   3835390401, 4022224774, 264347078, 604807628,
   770255983, 1249150122, 1555081692, 1996064986,
   2554220882, 2821834349, 2952996808, 3210313671,
   3336571891, 3584528711, 113926993, 338241895,
   666307205, 773529912, 1294757372, 1396182291,
   1695183700, 1986661051, 2177026350, 2456956037,
   2730485921, 2820302411, 3259730800, 3345764771,
   3516065817, 3600352804, 4094571909, 275423344,
   430227734, 506948616, 659060556, 883997877,
   958139571, 1322822218, 1537002063, 1747873779,
   1955562222, 2024104815, 2227730452, 2361852424,
   2428436474, 2756734187, 3204031479, 3329325298]

/-- The SHA-256 initial hash state. -/
def sha256H0 : List Nat :=
  [1779033703, 3144134277, 1013904242, 2773480762,
   1359893119, 2600822924, 528734635, 1541459225]

/-- Big-endian packing of bytes into 32-bit words. -/
def bytesToWords : List Nat → List Nat
  | a :: b :: c :: d :: rest => (a * 16777216 + b * 65536 + c * 256 + d) :: bytesToWords rest
  | _ => []

/-- One step of the message-schedule extension. -/
def schedStep (w : List Nat) : List Nat :=
  let m := w.length
  w ++ [w32 (smallSigma1 (w.getD (m - 2) 0) + w.getD (m - 7) 0 + smallSigma0 (w.getD (m - 15) 0)
    + w.getD (m - 16) 0)]

/-- Extend the 16 block words to the 64-entry message schedule. -/
def schedule (w16 : List Nat) : List Nat :=
  Nat.rec w16 (fun _ acc => schedStep acc) 48

/-- One SHA-256 compression round on the eight-word working state. -/
def roundStep (s : List Nat) (kw : Nat × Nat) : List Nat :=
  match s with
  | [a, b, c, d, e, f, g, h] =>
    let t1 := w32 (h + bigSigma1 e + chF e f g + kw.1 + kw.2)
    let t2 := w32 (bigSigma0 a + majF a b c)
    [w32 (t1 + t2), a, b, c, w32 (d + t1), e, f, g]
  | s => s

/-- Compress one 64-byte block into the hash state. -/
def compress (h : List Nat) (block : List Nat) : List Nat :=
  let w := schedule (bytesToWords block)
  let s := (sha256K.zip w).foldl roundStep h
  List.zipWith (fun a b => w32 (a + b)) h s

/-- Split a byte list into 64-byte chunks; the fuel argument makes the
recursion structural so that the kernel can evaluate it. -/
def chunks64Go : Nat → List Nat → List (List Nat)
  | _, [] => []
  | 0, _ => []
  | fuel + 1, l => l.take 64 :: chunks64Go fuel (l.drop 64)

def chunks64 (l : List Nat) : List (List Nat) := chunks64Go l.length l

/-- The eight-byte big-endian bit-length trailer of the padding. -/
def lenBytes (L : Nat) : List Nat :=
  let b := 8 * L
  [b / 2 ^ 56 % 256, b / 2 ^ 48 % 256, b / 2 ^ 40 % 256, b / 2 ^ 32 % 256,
   b / 2 ^ 24 % 256, b / 2 ^ 16 % 256, b / 2 ^ 8 % 256, b % 256]

/-- FIPS 180-4 padding: append 0x80, zeros to 56 mod 64, then the bit length. -/
def sha256pad (msg : List Nat) : List Nat :=
  msg ++ 128 :: List.replicate ((64 + 55 - msg.length % 64) % 64) 0 ++ lenBytes msg.length

/-- Big-endian bytes of a 32-bit word. -/
def wordBytes (x : Nat) : List Nat := [x / 16777216 % 256, x / 65536 % 256, x / 256 % 256, x % 256]

/-- SHA-256 of a byte list, as the 32-byte digest. -/
def sha256 (msg : List Nat) : List Nat :=
  ((chunks64 (sha256pad msg)).foldl compress sha256H0).flatMap wordBytes

/-- Lowercase hexadecimal digit. -/
def hexDigitChar (n : Nat) : Char := if n < 10 then Char.ofNat (48 + n) else Char.ofNat (87 + n)

def byteToHex (b : Nat) : List Char := [hexDigitChar (b / 16), hexDigitChar (b % 16)]

/-- Lowercase hex encoding of a byte list, as `hexdigest()` produces. -/
def hexOfBytes (bytes : List Nat) : String := String.mk (bytes.flatMap byteToHex)

/-- UTF-8 encoding of one character, as `str.encode()` produces per character. -/
def utf8EncodeByte (c : Char) : List Nat :=
  let n := c.toNat
  if n < 128 then [n]
  else if n < 2048 then [192 ||| (n >>> 6), 128 ||| (n &&& 63)]
  else if n < 65536 then [224 ||| (n >>> 12), 128 ||| ((n >>> 6) &&& 63), 128 ||| (n &&& 63)]
  else [240 ||| (n >>> 18), 128 ||| ((n >>> 12) &&& 63), 128 ||| ((n >>> 6) &&& 63),
    128 ||| (n &&& 63)]

/-- UTF-8 bytes of a string (`str.encode()`). -/
def strBytes (s : String) : List Nat := s.data.flatMap utf8EncodeByte

/-- HMAC-SHA256 per RFC 2104: keys longer than the 64-byte block are hashed
first, then zero-padded; inner pad 0x36, outer pad 0x5c. -/
def hmacSha256 (key msg : List Nat) : List Nat :=
  let k0 := if 64 < key.length then sha256 key else key
  let k := k0 ++ List.replicate (64 - k0.length) 0
  sha256 ((k.map (· ^^^ 92)) ++ sha256 ((k.map (· ^^^ 54)) ++ msg))

/-- Lowercase hex HMAC-SHA256 of a message string under a secret string,
exactly `hmac.new(secret.encode(), message.encode(), hashlib.sha256).hexdigest()`. -/
def hmacSha256Hex (secret message : String) : String :=
  hexOfBytes (hmacSha256 (strBytes secret) (strBytes message))

/-! ## HTTP result model -/

/-- FastAPI's `HTTPException`, carrying the status code and detail string. -/
structure HTTPException where
  status_code : Nat
  detail : String
deriving DecidableEq

/-! ## Payments router (`routes/payments.py`) -/

/-- Request body of `POST /api/payments/verify`. -/
structure VerifyPaymentPayload where
  razorpay_order_id : String
  razorpay_payment_id : String
  razorpay_signature : String
deriving DecidableEq

/-- The `verify_payment` handler. The environment lookup
`os.environ.get("RAZORPAY_KEY_SECRET")` is the `secretEnv` argument
(`none` when the variable is absent); Python's `if not secret` treats both
`None` and the empty string as unconfigured. -/
def verify_payment (secretEnv : Option String) (payload : VerifyPaymentPayload) :
    Except HTTPException (List (String × String)) :=
  let secret := secretEnv.getD ""
  if secret = "" then
    .error ⟨500, "Razorpay secret not configured"⟩
  else
    let message := payload.razorpay_order_id ++ "|" ++ payload.razorpay_payment_id
    let expected_signature := hmacSha256Hex secret message
    if expected_signature ≠ payload.razorpay_signature then
      .error ⟨400, "Payment verification failed"⟩
    else
      .ok [("status", "verified")]

/-! ## Binary64 arithmetic

The handler computes `int(payload.amount * 100)` where `payload.amount` is a
CPython `float`, an IEEE-754 binary64 value. A float is embedded as the exact
rational it denotes, and the float product is the exact product rounded to
the nearest binary64 value, ties to even. The embedding keeps the subnormal
clamp at `2 ^ (-1074)` and idealizes only the top of the range: products
beyond the largest finite double (≥ 2^1024, inconceivable for an order
amount) round to a wider grid instead of overflowing to infinity. The
rounding reproduces CPython products exactly, e.g. the double nearest 0.03
times 100 is exactly 3. -/

/-- Round the fraction u / v to the nearest integer, ties to even. -/
def rndHalfEven (u v : Nat) : Nat :=
  let q := u / v
  let r := u % v
  if 2 * r < v then q
  else if v < 2 * r then q + 1
  else if q % 2 = 0 then q else q + 1

/-- Least m with b ≤ a * 2 ^ m, by fuel-bounded doubling. -/
def upExp : Nat → Nat → Nat → Nat
  | 0, _, _ => 0
  | fuel + 1, a, b => if b ≤ a then 0 else upExp fuel (2 * a) b + 1

/-- Floor of log2 (a / b) for b ≤ a, by fuel-bounded doubling of b. -/
def downExp : Nat → Nat → Nat → Nat
  | 0, _, _ => 0
  | fuel + 1, a, b => if a < 2 * b then 0 else downExp fuel a (2 * b) + 1

/-- Floor of the base-2 logarithm of the positive fraction a / b. -/
def floorLog2 (a b : Nat) : Int :=
  if b ≤ a then (downExp a a b : Int) else -(upExp b a b : Int)

/-- Round the rational num / den to the nearest binary64 value, ties to even:
the 53-bit significand grid at exponent `⌊log2 |x|⌋ - 52`, clamped below at
the subnormal exponent -1074. -/
def roundB64nd (num : Int) (den : Nat) : ℚ :=
  if num = 0 then 0
  else
    let a := num.natAbs
    let e : Int := max (floorLog2 a den - 52) (-1074)
    let n : Nat := if 0 ≤ e then rndHalfEven a (den * 2 ^ e.toNat)
      else rndHalfEven (a * 2 ^ (-e).toNat) den
    let sgn : Int := if num < 0 then -1 else 1
    if 0 ≤ e then mkRat (sgn * (n * 2 ^ e.toNat : Nat)) 1
    else mkRat (sgn * n) (2 ^ (-e).toNat)

/-- The binary64 product `amount * 100` as CPython computes it: the exact
product (numerator times 100 over the same denominator) rounded to the
nearest double. -/
def fmul100 (amount : ℚ) : ℚ := roundB64nd (amount.num * 100) amount.den

/-- Request body of `POST /api/payments/create-order`: the amount in INR major
units. The payload's binary64 `float` is embedded as its exact rational
value. -/
structure CreateOrderPayload where
  amount : ℚ

/-- The argument dictionary the handler passes to `client.order.create`. -/
structure RazorpayOrderRequest where
  amount : ℤ
  currency : String
  receipt : String
  payment_capture : Nat
deriving DecidableEq

/-- The fields of the gateway's response that the handler reads. -/
structure RazorpayOrder where
  id : String
  amount : ℤ
  currency : String
deriving DecidableEq

/-- Response body of a successful order creation. -/
structure CreateOrderResponse where
  order_id : String
  amount : ℤ
  currency : String
deriving DecidableEq

/-- Python's `int()` on a rational value: truncation toward zero. -/
def pyInt (q : ℚ) : ℤ := Int.tdiv q.num q.den

/-- The `create_razorpay_order` handler. The external gateway is the
`gateway` argument (`none` models `client.order.create` raising). The first
component of the result is the list of gateway calls the handler attempted,
in order, so that "the gateway is never called" is observable. The paise
amount `int(payload.amount * 100)` is the binary64 product (`fmul100`)
truncated toward zero (`pyInt`). -/
def create_razorpay_order (gateway : RazorpayOrderRequest → Option RazorpayOrder)
    (payload : CreateOrderPayload) :
    List RazorpayOrderRequest × Except HTTPException CreateOrderResponse :=
  if payload.amount ≤ 0 then
    ([], .error ⟨400, "Invalid amount"⟩)
  else
    let req : RazorpayOrderRequest :=
      { amount := pyInt (fmul100 payload.amount), currency := "INR",
        receipt := "receipt_cocoa", payment_capture := 1 }
    ([req],
      match gateway req with
      | some order => .ok ⟨order.id, order.amount, order.currency⟩
      | none => .error ⟨500, "Razorpay order creation failed"⟩)

/-! ## Token service (`server.py`) -/

/-- The constant `JWT_EXPIRATION_HOURS = 24 * 7`. -/
def JWT_EXPIRATION_HOURS : ℤ := 24 * 7

/-- The claim dictionary passed to `create_access_token` at signup and login:
`{"sub": ..., "email": ..., "role": ...}`. -/
structure TokenData where
  sub : String
  email : String
  role : String
deriving DecidableEq

/-- The signed claim set of an issued token, with the absolute expiry instant
in seconds. -/
structure TokenClaims where
  sub : String
  email : String
  role : String
  exp : ℤ
deriving DecidableEq

/-- The `create_access_token` helper: copy the claims and set
`exp = now + timedelta(hours=JWT_EXPIRATION_HOURS)`, in seconds. -/
def create_access_token (data : TokenData) (now : ℤ) : TokenClaims :=
  { sub := data.sub, email := data.email, role := data.role,
    exp := now + JWT_EXPIRATION_HOURS * 3600 }

/-- Expiry acceptance of the token validator (the `jwt.decode` collaborator,
RFC 7519 `exp` semantics as PyJWT implements them): a token is accepted at
instant `now` exactly when `now` is strictly before the embedded expiry. -/
def tokenNotExpired (claims : TokenClaims) (now : ℤ) : Bool := now < claims.exp

/-! ## Users and auth handlers (`server.py`) -/

/-- The public `User` pydantic model: its fields are exactly these five, with
no password field, so `model_dump()` of a `User` can never carry one. -/
structure UserModel where
  id : String
  email : String
  name : String
  role : String
  created_at : String
deriving DecidableEq

/-- A document of the `users` collection as `signup` writes it: the `User`
fields plus the bcrypt hash under the `password` key. -/
structure StoredUserDoc where
  id : String
  email : String
  name : String
  role : String
  created_at : String
  password : String
deriving DecidableEq

/-- The values stored in a users-collection document, one per key. -/
def StoredUserDoc.docValues (d : StoredUserDoc) : List String :=
  [d.id, d.email, d.name, d.role, d.created_at, d.password]

/-- The key/value pairs a `User` model serializes to outward. -/
def userModelFields (u : UserModel) : List (String × String) :=
  [("id", u.id), ("email", u.email), ("name", u.name), ("role", u.role),
   ("created_at", u.created_at)]

/-- Request body of `POST /auth/signup`. -/
structure UserCreate where
  email : String
  password : String
  name : String
deriving DecidableEq

/-- Request body of `POST /auth/login`. -/
structure UserLogin where
  email : String
  password : String
deriving DecidableEq

/-- Response body of signup and login: `{"token": ..., "user": ...}`. -/
structure AuthResponse where
  token : TokenClaims
  user : UserModel
deriving DecidableEq

/-- The lookup `db.users.find_one({"email": email})` on the users collection. -/
def find_user_by_email (db : List StoredUserDoc) (email : String) : Option StoredUserDoc :=
  db.find? (fun u => u.email == email)

/-- The `signup` handler. The password hasher (`pwd_context.hash`) is the
`hash_password` argument; `genId` is the generated uuid, `nowIso` the stored
creation timestamp, `now` the token issuance instant. A successful result
carries the document inserted into the users collection together with the
response body. -/
def signup (hash_password : String → String) (db : List StoredUserDoc)
    (user_data : UserCreate) (genId nowIso : String) (now : ℤ) :
    Except HTTPException (StoredUserDoc × AuthResponse) :=
  match find_user_by_email db user_data.email with
  | some _ => .error ⟨400, "Email already registered"⟩
  | none =>
    let user : UserModel :=
      { id := genId, email := user_data.email, name := user_data.name,
        role := "customer", created_at := nowIso }
    let user_dict : StoredUserDoc :=
      { id := user.id, email := user.email, name := user.name, role := user.role,
        created_at := user.created_at, password := hash_password user_data.password }
    .ok (user_dict, ⟨create_access_token ⟨user.id, user.email, user.role⟩ now, user⟩)

/-- The `login` handler. The password verifier (`pwd_context.verify`) is the
`verify_password` argument. -/
def login (verify_password : String → String → Bool) (db : List StoredUserDoc)
    (credentials : UserLogin) (now : ℤ) : Except HTTPException AuthResponse :=
  match find_user_by_email db credentials.email with
  | none => .error ⟨401, "Invalid credentials"⟩
  | some user =>
    if ¬ verify_password credentials.password user.password then
      .error ⟨401, "Invalid credentials"⟩
    else
      let user_obj : UserModel :=
        { id := user.id, email := user.email, name := user.name, role := user.role,
          created_at := user.created_at }
      .ok ⟨create_access_token ⟨user_obj.id, user_obj.email, user_obj.role⟩ now, user_obj⟩

/-! ## Orders (`server.py`) -/

/-- A line item of an order: a snapshot copy of the menu item. -/
structure OrderItem where
  menu_item_id : String
  name : String
  price : ℚ
  quantity : ℤ
deriving DecidableEq

/-- An `orders` collection document / the `Order` pydantic model. -/
structure Order where
  id : String
  user_id : String
  user_name : String
  user_email : String
  items : List OrderItem
  total_amount : ℚ
  status : String
  created_at : String
  updated_at : String
deriving DecidableEq

/-- Request body of `POST /orders`. -/
structure OrderCreate where
  items : List OrderItem
  total_amount : ℚ
deriving DecidableEq

/-- The lookup `db.orders.find_one({"id": order_id})` on the orders collection. -/
def find_order_by_id (db : List Order) (order_id : String) : Option Order :=
  db.find? (fun o => o.id == order_id)

/-- The `create_order` handler body: the `Order` constructed from the payload
and the authenticated user, with defaulted id, status and timestamps. The
same document is inserted and returned. -/
def create_order (order_data : OrderCreate) (current_user : UserModel)
    (genId nowIso : String) : Order :=
  { id := genId, user_id := current_user.id, user_name := current_user.name,
    user_email := current_user.email, items := order_data.items,
    total_amount := order_data.total_amount, status := "pending",
    created_at := nowIso, updated_at := nowIso }

/-- The `get_order` handler (`GET /orders/{order_id}`). -/
def get_order (db : List Order) (order_id : String) (current_user : UserModel) :
    Except HTTPException Order :=
  match find_order_by_id db order_id with
  | none => .error ⟨404, "Order not found"⟩
  | some order =>
    if order.user_id ≠ current_user.id ∧ current_user.role ≠ "admin" then
      .error ⟨403, "Access denied"⟩
    else
      .ok order

/-- The `$set` document of the admin status update: only `status` and
`updated_at` are assigned. -/
def set_status_updated (o : Order) (s nowIso : String) : Order :=
  { o with status := s, updated_at := nowIso }

/-- The call `db.orders.update_one` with the id filter: apply the `$set`
document to the first matching order. -/
def update_one_status : List Order → String → String → String → List Order
  | [], _, _, _ => []
  | o :: rest, order_id, s, nowIso =>
    if o.id == order_id then set_status_updated o s nowIso :: rest
    else o :: update_one_status rest order_id s nowIso

/-- The `update_order_status` handler (`PATCH /admin/orders/{order_id}/status`).
A successful result carries the updated orders collection and the ack body. -/
def update_order_status (db : List Order) (order_id : String)
    (status_update : String) (nowIso : String) :
    Except HTTPException (List Order × List (String × String)) :=
  match find_order_by_id db order_id with
  | none => .error ⟨404, "Order not found"⟩
  | some _ =>
    .ok (update_one_status db order_id status_update nowIso,
      [("message", "Order status updated successfully")])

/-! ## Helper lemmas -/

/-- With a configured secret, `verify_payment` reduces to the signature
comparison. -/
theorem verify_payment_of_secret (secret : String) (hs : secret ≠ "")
    (payload : VerifyPaymentPayload) :
    verify_payment (some secret) payload =
      if hmacSha256Hex secret (payload.razorpay_order_id ++ "|" ++ payload.razorpay_payment_id)
          ≠ payload.razorpay_signature then
        Except.error ⟨400, "Payment verification failed"⟩
      else
        Except.ok [("status", "verified")] := by
  have key : verify_payment (some secret) payload =
      if secret = "" then Except.error ⟨500, "Razorpay secret not configured"⟩
      else
        if hmacSha256Hex secret (payload.razorpay_order_id ++ "|" ++ payload.razorpay_payment_id)
            ≠ payload.razorpay_signature then
          Except.error ⟨400, "Payment verification failed"⟩
        else
          Except.ok [("status", "verified")] := rfl
  rw [key, if_neg hs]

/-- For a strictly positive amount, `create_razorpay_order` performs exactly
one gateway call, with the truncated binary64 paise amount and fixed INR
currency. -/
theorem create_razorpay_order_calls_of_pos
    (gateway : RazorpayOrderRequest → Option RazorpayOrder) (payload : CreateOrderPayload)
    (h : 0 < payload.amount) :
    (create_razorpay_order gateway payload).1 =
      [{ amount := pyInt (fmul100 payload.amount), currency := "INR",
         receipt := "receipt_cocoa", payment_capture := 1 }] := by
  unfold create_razorpay_order
  rw [if_neg (not_le.mpr h)]

/-- For a non-positive amount, `create_razorpay_order` rejects with 400 and
attempts no gateway call. -/
theorem create_razorpay_order_nonpos
    (gateway : RazorpayOrderRequest → Option RazorpayOrder) (payload : CreateOrderPayload)
    (h : payload.amount ≤ 0) :
    create_razorpay_order gateway payload =
      ([], Except.error ⟨400, "Invalid amount"⟩) := by
  unfold create_razorpay_order
  rw [if_pos h]

/-- On nonnegative rationals, Python truncation agrees with the floor. -/
theorem pyInt_eq_floor (q : ℚ) (h : 0 ≤ q) : pyInt q = ⌊q⌋ := by
  unfold pyInt
  rw [Rat.floor_def, Int.tdiv_eq_ediv (Rat.num_nonneg.mpr h) (by positivity)]

/-! ## Claim theorems -/

/-- C1: with a configured shared secret, `verify_payment` returns
`{status: "verified"}` exactly when the supplied `razorpay_signature` equals
the lowercase hex HMAC-SHA256 of `"{orderId}|{paymentId}"` under the secret;
for every other signature value it rejects with HTTP 400. -/
theorem C1_verify_payment_signature_iff (secret : String) (hs : secret ≠ "")
    (payload : VerifyPaymentPayload) :
    (verify_payment (some secret) payload = .ok [("status", "verified")] ↔
      payload.razorpay_signature =
        hmacSha256Hex secret
          (payload.razorpay_order_id ++ "|" ++ payload.razorpay_payment_id)) ∧
    (payload.razorpay_signature ≠
        hmacSha256Hex secret
          (payload.razorpay_order_id ++ "|" ++ payload.razorpay_payment_id) →
      verify_payment (some secret) payload =
        .error ⟨400, "Payment verification failed"⟩) := by
  rw [verify_payment_of_secret secret hs payload]
  by_cases h : hmacSha256Hex secret
      (payload.razorpay_order_id ++ "|" ++ payload.razorpay_payment_id) =
      payload.razorpay_signature
  · rw [if_neg (fun hc => hc h)]
    exact ⟨⟨fun _ => h.symm, fun _ => rfl⟩, fun hne => absurd h.symm hne⟩
  · rw [if_pos h]
    exact ⟨⟨fun hc => Except.noConfusion hc, fun hsig => absurd hsig.symm h⟩, fun _ => rfl⟩

set_option maxRecDepth 100000 in
/-- Witness for C1: a concrete correct signature verifies; the HMAC value is
evaluated by the kernel. -/
theorem C1_witness :
    verify_payment (some "testsecret")
      { razorpay_order_id := "order_M1", razorpay_payment_id := "pay_N2",
        razorpay_signature :=
          "6a45e1289e5faf6255a2fca0cfac8115044063d8de01104e210f8bb604b14aa2" } =
      .ok [("status", "verified")] :=
  (C1_verify_payment_signature_iff "testsecret" (by decide) _).1.mpr (by decide)

/-- C2: with the shared secret unconfigured (absent or empty), `verify_payment`
fails closed with HTTP 500 on every payload and never returns
`{status: "verified"}`. -/
theorem C2_unconfigured_secret_fails_closed (secretEnv : Option String)
    (h : secretEnv = none ∨ secretEnv = some "") (payload : VerifyPaymentPayload) :
    verify_payment secretEnv payload = .error ⟨500, "Razorpay secret not configured"⟩ ∧
    ∀ body, verify_payment secretEnv payload ≠ .ok body := by
  have hv : verify_payment secretEnv payload =
      .error ⟨500, "Razorpay secret not configured"⟩ := by
    rcases h with h | h <;> subst h <;> rfl
  refine ⟨hv, fun body hb => ?_⟩
  rw [hv] at hb
  exact Except.noConfusion hb

/-- Witness for C2: both the absent and the empty secret reject with 500. -/
theorem C2_witness :
    verify_payment none ⟨"o", "p", "sig"⟩ =
      .error ⟨500, "Razorpay secret not configured"⟩ ∧
    verify_payment (some "") ⟨"o", "p", "sig"⟩ =
      .error ⟨500, "Razorpay secret not configured"⟩ :=
  ⟨(C2_unconfigured_secret_fails_closed none (Or.inl rfl) _).1,
   (C2_unconfigured_secret_fails_closed (some "") (Or.inr rfl) _).1⟩

/-- C3: `create_razorpay_order` rejects every non-positive amount with
HTTP 400 and attempts no gateway call; for every positive amount the gateway
is called. -/
theorem C3_amount_validation (gateway : RazorpayOrderRequest → Option RazorpayOrder)
    (payload : CreateOrderPayload) :
    (payload.amount ≤ 0 →
      create_razorpay_order gateway payload = ([], .error ⟨400, "Invalid amount"⟩)) ∧
    (0 < payload.amount → (create_razorpay_order gateway payload).1 ≠ []) := by
  refine ⟨fun h => create_razorpay_order_nonpos gateway payload h, fun h => ?_⟩
  rw [create_razorpay_order_calls_of_pos gateway payload h]
  simp

/-- Witness for C3: amounts −5 and 0 are rejected before any gateway call;
amount 5 reaches the gateway. -/
theorem C3_witness :
    create_razorpay_order (fun _ => none) ⟨-5⟩ = ([], .error ⟨400, "Invalid amount"⟩) ∧
    create_razorpay_order (fun _ => none) ⟨0⟩ = ([], .error ⟨400, "Invalid amount"⟩) ∧
    (create_razorpay_order (fun _ => none) ⟨5⟩).1 ≠ [] :=
  ⟨(C3_amount_validation _ _).1 (by norm_num),
   (C3_amount_validation _ _).1 le_rfl,
   (C3_amount_validation _ _).2 (by norm_num)⟩

/-- The binary64 value nearest 0.03 — the float payload a client sending
0.03 actually delivers (CPython: `Fraction(0.03)`). -/
def dbl003 : ℚ := mkRat 1080863910568919 (2 ^ 55)

set_option maxRecDepth 100000 in
/-- Counterexample for C4: for the double nearest 0.03 the program sends 3
paise to the gateway (its binary64 product with 100 is exactly 3.0), while
exact multiplication by 100 and truncation of the amount gives 2 — so the
sent amount is not the exact truncation the claim states. -/
theorem C4_counterexample :
    0 < dbl003 ∧
    (create_razorpay_order (fun _ => none) ⟨dbl003⟩).1.map RazorpayOrderRequest.amount
      = [3] ∧
    ⌊dbl003 * 100⌋ = 2 ∧
    (create_razorpay_order (fun _ => none) ⟨dbl003⟩).1 ≠
      [{ amount := ⌊dbl003 * 100⌋, currency := "INR", receipt := "receipt_cocoa",
         payment_capture := 1 }] := by
  have h0 : (0 : ℚ) < dbl003 := by decide
  have hcalls := create_razorpay_order_calls_of_pos (fun _ => none) ⟨dbl003⟩ h0
  have hfl : ⌊dbl003 * 100⌋ = 2 := by
    have heq : dbl003 = (1080863910568919 : ℚ) / 2 ^ 55 := by
      unfold dbl003
      rw [Rat.mkRat_eq_div]
      norm_num
    rw [heq]
    norm_num
  have hamt : pyInt (fmul100 dbl003) = 3 := by decide
  refine ⟨h0, ?_, hfl, ?_⟩
  · rw [hcalls]
    simp [hamt]
  · rw [hcalls, hfl, hamt]
    simp

set_option maxRecDepth 100000 in
/-- C4 (amended): for every accepted (positive) amount, the single gateway
call carries the binary64 product amount times 100 — IEEE round-to-nearest —
truncated toward zero; that equals the exact multiply-by-100-and-truncate
whenever the product incurs no rounding, and the currency is always "INR",
with no currency conversion (no exchange-rate multiplication) applied. -/
theorem C4_minor_units_binary64
    (gateway : RazorpayOrderRequest → Option RazorpayOrder) (payload : CreateOrderPayload)
    (h : 0 < payload.amount) :
    (create_razorpay_order gateway payload).1 =
      [{ amount := pyInt (fmul100 payload.amount), currency := "INR",
         receipt := "receipt_cocoa", payment_capture := 1 }] ∧
    (fmul100 payload.amount = payload.amount * 100 →
      pyInt (fmul100 payload.amount) = ⌊payload.amount * 100⌋) := by
  refine ⟨create_razorpay_order_calls_of_pos gateway payload h, fun hexact => ?_⟩
  rw [hexact]
  exact pyInt_eq_floor _ (by positivity)

set_option maxRecDepth 100000 in
/-- Witness for C4: amount 5 INR is sent as exactly 500 paise under currency
"INR", and its product with 100 is exact, so the sent amount is the exact
floor. -/
theorem C4_witness :
    (create_razorpay_order (fun _ => none) ⟨5⟩).1 =
      [{ amount := 500, currency := "INR", receipt := "receipt_cocoa",
         payment_capture := 1 }] ∧
    pyInt (fmul100 5) = ⌊(5 : ℚ) * 100⌋ := by
  have h := C4_minor_units_binary64 (fun _ => none) ⟨5⟩ (by norm_num)
  have hexact : fmul100 5 = (5 : ℚ) * 100 := by
    have h1 : fmul100 5 = 500 := by decide
    rw [h1]
    norm_num
  refine ⟨?_, h.2 hexact⟩
  rw [h.1]
  have h3 : pyInt (fmul100 5) = 500 := by decide
  rw [h3]

/-- C5: every issued token's expiry is exactly the issuance instant plus
168 hours; the token is accepted one second after issuance and rejected one
second past the 168-hour mark. -/
theorem C5_token_expiry_168h (data : TokenData) (now : ℤ) :
    (create_access_token data now).exp = now + 168 * 3600 ∧
    tokenNotExpired (create_access_token data now) (now + 1) = true ∧
    tokenNotExpired (create_access_token data now) (now + 168 * 3600 + 1) = false := by
  refine ⟨rfl, ?_, ?_⟩ <;>
    simp only [tokenNotExpired, create_access_token, JWT_EXPIRATION_HOURS,
      decide_eq_true_eq, decide_eq_false_iff_not, not_lt] <;>
    omega

/-- C6: the login failure for an unknown email and the failure for a known
email with a wrong password produce the identical response: the same 401
with the same generic detail, in any pair of executions. -/
theorem C6_login_failures_indistinguishable (verify_password : String → String → Bool)
    (db1 db2 : List StoredUserDoc) (creds1 creds2 : UserLogin) (now1 now2 : ℤ)
    (u : StoredUserDoc)
    (h1 : find_user_by_email db1 creds1.email = none)
    (h2 : find_user_by_email db2 creds2.email = some u)
    (h3 : verify_password creds2.password u.password = false) :
    login verify_password db1 creds1 now1 = .error ⟨401, "Invalid credentials"⟩ ∧
    login verify_password db2 creds2 now2 = .error ⟨401, "Invalid credentials"⟩ ∧
    login verify_password db1 creds1 now1 = login verify_password db2 creds2 now2 := by
  have e1 : login verify_password db1 creds1 now1 = .error ⟨401, "Invalid credentials"⟩ := by
    unfold login
    rw [h1]
  have e2 : login verify_password db2 creds2 now2 = .error ⟨401, "Invalid credentials"⟩ := by
    unfold login
    rw [h2]
    simp [h3]
  exact ⟨e1, e2, e1.trans e2.symm⟩

/-- Witness for C6: an empty user store versus a store holding the account,
queried with a wrong password, return the same 401 response. -/
theorem C6_witness :
    login (fun p h => p == h) [] ⟨"b@x.com", "pw"⟩ 0 =
      .error ⟨401, "Invalid credentials"⟩ ∧
    login (fun p h => p == h) [⟨"u1", "a@x.com", "A", "customer", "t0", "stored-hash"⟩]
      ⟨"a@x.com", "wrong"⟩ 5 = .error ⟨401, "Invalid credentials"⟩ ∧
    login (fun p h => p == h) [] ⟨"b@x.com", "pw"⟩ 0 =
      login (fun p h => p == h) [⟨"u1", "a@x.com", "A", "customer", "t0", "stored-hash"⟩]
        ⟨"a@x.com", "wrong"⟩ 5 :=
  C6_login_failures_indistinguishable (fun p h => p == h) []
    [⟨"u1", "a@x.com", "A", "customer", "t0", "stored-hash"⟩]
    ⟨"b@x.com", "pw"⟩ ⟨"a@x.com", "wrong"⟩ 0 5
    ⟨"u1", "a@x.com", "A", "customer", "t0", "stored-hash"⟩ rfl (by decide) (by decide)

/-- When the order lookup succeeds, `get_order` reduces to the ownership/role
check. -/
theorem get_order_of_found (db : List Order) (order_id : String) (u : UserModel)
    (o : Order) (ho : find_order_by_id db order_id = some o) :
    get_order db order_id u =
      if o.user_id ≠ u.id ∧ u.role ≠ "admin" then .error ⟨403, "Access denied"⟩
      else .ok o := by
  unfold get_order
  rw [ho]

/-- C7: `GET /orders/{id}` returns 404 when the order is absent, 403 when the
requester is neither the owner nor an admin, and the order document exactly
when the requester is the owner or an admin. -/
theorem C7_get_order_access (db : List Order) (order_id : String) (u : UserModel) :
    (find_order_by_id db order_id = none →
      get_order db order_id u = .error ⟨404, "Order not found"⟩) ∧
    (∀ o, find_order_by_id db order_id = some o →
      ((o.user_id ≠ u.id ∧ u.role ≠ "admin") →
        get_order db order_id u = .error ⟨403, "Access denied"⟩) ∧
      (get_order db order_id u = .ok o ↔ (o.user_id = u.id ∨ u.role = "admin"))) := by
  constructor
  · intro h
    unfold get_order
    rw [h]
  · intro o ho
    rw [get_order_of_found db order_id u o ho]
    by_cases hc : o.user_id ≠ u.id ∧ u.role ≠ "admin"
    · rw [if_pos hc]
      refine ⟨fun _ => rfl, ⟨fun hcon => Except.noConfusion hcon, fun hor => ?_⟩⟩
      rcases hor with he | he
      · exact absurd he hc.1
      · exact absurd he hc.2
    · rw [if_neg hc]
      rw [not_and_or, not_not, not_not] at hc
      exact ⟨fun hcon => absurd hcon (by rw [not_and_or, not_not, not_not]; exact hc),
        ⟨fun _ => hc, fun _ => rfl⟩⟩

/-- A sample order owned by user A, used by the access-control witnesses. -/
def orderOfA : Order :=
  { id := "o1", user_id := "uA", user_name := "A", user_email := "a@x.com",
    items := [⟨"m1", "Truffle", 5, 2⟩], total_amount := 10, status := "pending",
    created_at := "t1", updated_at := "t1" }

/-- A non-admin customer distinct from user A. -/
def userB : UserModel :=
  { id := "uB", email := "b@x.com", name := "B", role := "customer", created_at := "t0" }

/-- An admin user distinct from user A. -/
def adminUser : UserModel :=
  { id := "uAdm", email := "adm@x.com", name := "Adm", role := "admin", created_at := "t0" }

/-- Witness for C7: user B gets 403 on A's order, the admin gets the order,
and a missing id gives 404. -/
theorem C7_witness :
    get_order [orderOfA] "o1" userB = .error ⟨403, "Access denied"⟩ ∧
    get_order [orderOfA] "o1" adminUser = .ok orderOfA ∧
    get_order [orderOfA] "missing" userB = .error ⟨404, "Order not found"⟩ :=
  ⟨((C7_get_order_access [orderOfA] "o1" userB).2 orderOfA (by decide)).1 (by decide),
   ((C7_get_order_access [orderOfA] "o1" adminUser).2 orderOfA (by decide)).2.mpr
     (Or.inr rfl),
   (C7_get_order_access [orderOfA] "missing" userB).1 (by decide)⟩

/-- With an unused email, `signup` succeeds with the inserted document and
response spelled out. -/
theorem signup_of_free_email (hash_password : String → String) (db : List StoredUserDoc)
    (user_data : UserCreate) (genId nowIso : String) (now : ℤ)
    (hfree : find_user_by_email db user_data.email = none) :
    signup hash_password db user_data genId nowIso now =
      .ok (⟨genId, user_data.email, user_data.name, "customer", nowIso,
              hash_password user_data.password⟩,
           ⟨create_access_token ⟨genId, user_data.email, "customer"⟩ now,
              ⟨genId, user_data.email, user_data.name, "customer", nowIso⟩⟩) := by
  unfold signup
  rw [hfree]

/-- C8: a successful signup stores the password hash under the `password` key,
the plaintext password appears nowhere in the stored document (whenever it
differs from the genuinely unrelated fields and from its own hash), and the
user object returned outward serializes exactly the five public fields with
no password or password-hash key — as does every `UserModel` serialized by
login or by the `/auth/me` handler. -/
theorem C8_no_plaintext_password (hash_password : String → String)
    (db : List StoredUserDoc) (user_data : UserCreate) (genId nowIso : String) (now : ℤ)
    (hfree : find_user_by_email db user_data.email = none)
    (doc : StoredUserDoc) (resp : AuthResponse)
    (hok : signup hash_password db user_data genId nowIso now = .ok (doc, resp)) :
    doc.password = hash_password user_data.password ∧
    (hash_password user_data.password ≠ user_data.password →
      user_data.password ≠ genId → user_data.password ≠ user_data.email →
      user_data.password ≠ user_data.name → user_data.password ≠ "customer" →
      user_data.password ≠ nowIso →
      user_data.password ∉ doc.docValues) ∧
    (userModelFields resp.user).map Prod.fst = ["id", "email", "name", "role", "created_at"] ∧
    "password" ∉ (userModelFields resp.user).map Prod.fst ∧
    ∀ u : UserModel, "password" ∉ (userModelFields u).map Prod.fst := by
  rw [signup_of_free_email hash_password db user_data genId nowIso now hfree] at hok
  simp only [Except.ok.injEq, Prod.mk.injEq] at hok
  obtain ⟨hdoc, hresp⟩ := hok
  subst hdoc
  subst hresp
  refine ⟨rfl, ?_, rfl, ?_, ?_⟩
  case refine_2 =>
    show "password" ∉ ["id", "email", "name", "role", "created_at"]
    decide
  case refine_3 =>
    intro u
    show "password" ∉ ["id", "email", "name", "role", "created_at"]
    decide
  intro h1 h2 h3 h4 h5 h6
  simp only [StoredUserDoc.docValues, List.mem_cons, List.not_mem_nil, or_false]
  rintro (h | h | h | h | h | h)
  exacts [h2 h, h3 h, h4 h, h5 h, h6 h, h1 h.symm]

/-- Witness for C8: a concrete signup stores only the hashed password, and the
outward user serialization carries no password key. -/
theorem C8_witness :
    "pw123456" ∉
      (⟨"u1", "a@x.com", "A", "customer", "t0",
        "bcrypt2b" ++ "pw123456"⟩ : StoredUserDoc).docValues ∧
    "password" ∉
      (userModelFields ⟨"u1", "a@x.com", "A", "customer", "t0"⟩).map Prod.fst := by
  have h := C8_no_plaintext_password (fun s => "bcrypt2b" ++ s) []
    ⟨"a@x.com", "pw123456", "A"⟩ "u1" "t0" 0 rfl _ _ rfl
  exact ⟨h.2.1 (by decide) (by decide) (by decide) (by decide) (by decide) (by decide),
    h.2.2.2.1⟩

/-- C9: the stored order carries the client-supplied total and line items
verbatim — the server never recomputes the total server-side — and the
status is initialized to "pending". -/
theorem C9_order_client_supplied_total (order_data : OrderCreate)
    (current_user : UserModel) (genId nowIso : String) :
    (create_order order_data current_user genId nowIso).total_amount =
      order_data.total_amount ∧
    (create_order order_data current_user genId nowIso).items = order_data.items ∧
    (create_order order_data current_user genId nowIso).status = "pending" :=
  ⟨rfl, rfl, rfl⟩

/-- Applying `update_one_status` to a list decomposed around the first id
match updates exactly that element. -/
theorem update_one_status_append (pre post : List Order) (o : Order)
    (order_id s nowIso : String)
    (hpre : ∀ x ∈ pre, (x.id == order_id) = false) (ho : (o.id == order_id) = true) :
    update_one_status (pre ++ o :: post) order_id s nowIso =
      pre ++ set_status_updated o s nowIso :: post := by
  induction pre with
  | nil => simp [update_one_status, ho]
  | cons b pre ih =>
    have hb := hpre b (List.mem_cons_self b pre)
    have ih2 := ih (fun x hx => hpre x (List.mem_cons_of_mem b hx))
    simp [update_one_status, hb, ih2]

/-- When the order lookup succeeds, the admin status update returns the
updated collection and the ack body. -/
theorem update_order_status_of_found (db : List Order) (order_id s nowIso : String)
    (o : Order) (h : find_order_by_id db order_id = some o) :
    update_order_status db order_id s nowIso =
      .ok (update_one_status db order_id s nowIso,
        [("message", "Order status updated successfully")]) := by
  unfold update_order_status
  rw [h]

/-- C10: the admin status update rewrites only the `status` and `updated_at`
fields of the first order matching the id — every other field, and every
other order, is untouched — and the supplied status string is stored
verbatim, with no validation of its value. -/
theorem C10_status_update_frame (db : List Order) (order_id s nowIso : String)
    (o : Order) (h : find_order_by_id db order_id = some o) :
    ∃ pre post,
      db = pre ++ o :: post ∧
      (∀ x ∈ pre, (x.id == order_id) = false) ∧
      update_order_status db order_id s nowIso =
        .ok (pre ++ set_status_updated o s nowIso :: post,
          [("message", "Order status updated successfully")]) ∧
      (set_status_updated o s nowIso).status = s ∧
      (set_status_updated o s nowIso).updated_at = nowIso ∧
      (set_status_updated o s nowIso).id = o.id ∧
      (set_status_updated o s nowIso).user_id = o.user_id ∧
      (set_status_updated o s nowIso).user_name = o.user_name ∧
      (set_status_updated o s nowIso).user_email = o.user_email ∧
      (set_status_updated o s nowIso).items = o.items ∧
      (set_status_updated o s nowIso).total_amount = o.total_amount ∧
      (set_status_updated o s nowIso).created_at = o.created_at := by
  have hfind : db.find? (fun x => x.id == order_id) = some o := h
  obtain ⟨hpo, pre, post, hdb, hpre'⟩ := List.find?_eq_some.mp hfind
  have hpre : ∀ x ∈ pre, (x.id == order_id) = false := fun x hx => by
    simpa using hpre' x hx
  refine ⟨pre, post, hdb, hpre, ?_, rfl, rfl, rfl, rfl, rfl, rfl, rfl, rfl, rfl⟩
  rw [update_order_status_of_found db order_id s nowIso o h, hdb,
    update_one_status_append pre post o order_id s nowIso hpre hpo]

/-- Witness for C10: updating the one-element collection stores an arbitrary,
unvalidated status string and touches nothing else. -/
theorem C10_witness :
    update_order_status [orderOfA] "o1" "made-up-status" "t9" =
      .ok ([set_status_updated orderOfA "made-up-status" "t9"],
        [("message", "Order status updated successfully")]) := by
  obtain ⟨pre, post, hdb, hpre, hupd, hrest⟩ :=
    C10_status_update_frame [orderOfA] "o1" "made-up-status" "t9" orderOfA (by decide)
  have hlen := congrArg List.length hdb
  simp only [List.length_append, List.length_cons, List.length_nil] at hlen
  have hpre0 : pre = [] := List.eq_nil_of_length_eq_zero (by omega)
  have hpost0 : post = [] := List.eq_nil_of_length_eq_zero (by omega)
  subst hpre0
  subst hpost0
  simpa using hupd

end Cocoa
